import Mathlib

/-!
Verification development for the cctop log-aggregation pipeline.

This file gives a shallow embedding, in Lean 4, of the parsing, aggregation,
status-classification, reset-schedule, pricing and pricing-cache logic of the
cctop repository (`src/cctop/parsers/jsonl_parser.py`,
`src/cctop/parsers/aggregator.py`, `src/cctop/models/usage_metrics.py`,
`src/cctop/utils/pricing.py`, `src/cctop/utils/pricing_cache.py`), and proves
or refutes the specification claims about it.

Modelling conventions:
- JSON values are modelled by the inductive `Json`; JSON numbers are modelled
  as integers (the records relevant to these claims carry only integral
  counters).
- A decoded log record (a Python dict) is an association list `Record`;
  `recGet` is `dict.get(key, default)`.  Calling `.get` on a non-dict value
  raises `AttributeError`, modelled by `dictGet` returning `.error`.
- Python exceptions are modelled with `Except PyErr`; an uncaught exception is
  an `.error` result that propagates through `do`-blocks exactly as Python
  propagates it up the call stack.
- Wall-clock instants (`datetime`) are integers counting seconds since the
  Unix epoch.  Where the source calls `datetime.now()`, the embedding takes
  `now` as an explicit argument.  Timezone-awareness bookkeeping is not
  modelled separately: the source always subtracts like-kinded datetimes
  (it attaches a tzinfo to `now` exactly when the parsed timestamp has one),
  so every subtraction is a difference of instants on one time line.
- `dateutil.parser.isoparse` is modelled by `isoparse`, a parser for the
  ISO-8601 shapes `YYYY-MM-DDTHH:MM:SS[.ffffff][Z|+HH:MM|-HH:MM]` actually
  occurring in the logs; it returns `none` where dateutil raises `ValueError`.
-/

/-- A JSON value as produced by `json.loads`.  Numbers are modelled as
integers: every numeric field the claims touch (token counters) is integral. -/
inductive Json where
  | null : Json
  | bool : Bool → Json
  | num : Int → Json
  | str : String → Json
  | arr : List Json → Json
  | obj : List (String × Json) → Json

/-- A decoded log record: a Python dict keyed by strings. -/
abbrev Record := List (String × Json)

/-- The Python exception classes that the embedded code can raise. -/
inductive PyErr where
  | keyError : PyErr
  | valueError : PyErr
  | typeError : PyErr
  | attributeError : PyErr
deriving DecidableEq, Repr

/-- Python truthiness (`bool(v)`) of a JSON value: `None`, `False`, `0`, `""`,
`[]` and `{}` are falsy, everything else truthy. -/
def Json.isTruthy : Json → Bool
  | .null => false
  | .bool b => b
  | .num n => n != 0
  | .str s => s != ""
  | .arr l => !l.isEmpty
  | .obj l => !l.isEmpty

/-- Whether a JSON value is a dict (`isinstance(v, dict)`). -/
def Json.isObj : Json → Bool
  | .obj _ => true
  | _ => false

/-- Python `v == "lit"` for a JSON value `v` and a string literal: true
exactly when `v` is that string (equality across types is `False`). -/
def Json.eqStr (v : Json) (lit : String) : Bool :=
  match v with
  | .str s => s == lit
  | _ => false

/-- `d.get(key, default)` on a Python dict `d` (first binding wins; Python
dicts have unique keys, so the choice is immaterial). -/
def recGet (r : Record) (k : String) (dflt : Json) : Json :=
  match r.find? (fun p => p.1 == k) with
  | some p => p.2
  | none => dflt

/-- `v.get(key, default)` on an arbitrary JSON value `v`.  Python raises
`AttributeError` when `v` is not a dict (strings, lists, numbers, booleans
and `None` have no `.get` method). -/
def dictGet (v : Json) (k : String) (dflt : Json) : Except PyErr Json :=
  match v with
  | .obj fields => .ok (recGet fields k dflt)
  | _ => .error .attributeError

/-- Python `int + v` where `v` came from a JSON field: adding an `int` or a
`bool` (`True` counts as 1) succeeds, anything else raises `TypeError`. -/
def pyAdd (n : Int) (v : Json) : Except PyErr Int :=
  match v with
  | .num m => .ok (n + m)
  | .bool b => .ok (n + if b then 1 else 0)
  | _ => .error .typeError

/-! ### Calendar arithmetic and ISO-8601 timestamp parsing -/

/-- Days from 1970-01-01 to the civil date `(y, m, d)` (proleptic Gregorian
calendar; the standard era-based formula). -/
def daysFromCivil (y m d : Int) : Int :=
  let y' := if m ≤ 2 then y - 1 else y
  let era := (if 0 ≤ y' then y' else y' - 399) / 400
  let yoe := y' - era * 400
  let doy := (153 * (if 2 < m then m - 3 else m + 9) + 2) / 5 + d - 1
  let doe := yoe * 365 + yoe / 4 - yoe / 100 + doy
  era * 146097 + doe - 719468

/-- Digit test on a character, via its code point. -/
def isDigitChar (c : Char) : Bool :=
  48 ≤ c.toNat && c.toNat ≤ 57

/-- The natural number denoted by a non-empty list of decimal digits. -/
def digitsToNat? (l : List Char) : Option Nat :=
  if l.isEmpty || !(l.all isDigitChar) then none
  else some (l.foldl (fun n c => 10 * n + (c.toNat - 48)) 0)

/-- Split a character list at every occurrence of the separator `c`. -/
def splitOnCharAux (c : Char) : List Char → List Char → List (List Char)
  | [], acc => [acc.reverse]
  | x :: xs, acc =>
    if x = c then acc.reverse :: splitOnCharAux c xs []
    else splitOnCharAux c xs (x :: acc)

/-- Split a character list at every occurrence of the separator `c`. -/
def splitOnChar (c : Char) (l : List Char) : List (List Char) :=
  splitOnCharAux c l []

/-- Parse the date part `YYYY-MM-DD` of an ISO-8601 string. -/
def parseDatePart (l : List Char) : Option (Int × Int × Int) := do
  match splitOnChar '-' l with
  | [ys, ms, ds] =>
    if ys.length = 4 && ms.length = 2 && ds.length = 2 then do
      let y ← digitsToNat? ys
      let mo ← digitsToNat? ms
      let d ← digitsToNat? ds
      if 1 ≤ mo && mo ≤ 12 && 1 ≤ d && d ≤ 31 then
        return ((y : Int), (mo : Int), (d : Int))
      else none
    else none
  | _ => none

/-- Parse `HH:MM:SS[.ffffff]` into seconds past midnight (fractional seconds
are truncated, matching the second-level resolution of the time model). -/
def parseClockPart (l : List Char) : Option Int := do
  let hms ←
    match splitOnChar '.' l with
    | [hms] => some hms
    | [hms, frac] => if !frac.isEmpty && frac.all isDigitChar then some hms else none
    | _ => none
  match splitOnChar ':' hms with
  | [hs, ms, ss] =>
    if hs.length = 2 && ms.length = 2 && ss.length = 2 then do
      let h ← digitsToNat? hs
      let mi ← digitsToNat? ms
      let s ← digitsToNat? ss
      if h ≤ 23 && mi ≤ 59 && s ≤ 59 then
        return ((h : Int) * 3600 + (mi : Int) * 60 + (s : Int))
      else none
    else none
  | _ => none

/-- Split the time-of-day part of an ISO-8601 string from its UTC-offset
suffix.  The result pairs the clock characters with `none` (no suffix, a
naive timestamp), or `some (sign?, rest)` where `sign? = none` stands for a
literal `Z` and `some b` for a `+` (`b = false`) or `-` (`b = true`). -/
def splitOffsetAux : List Char → List Char → List Char × Option (Option Bool × List Char)
  | [], acc => (acc.reverse, none)
  | c :: rest, acc =>
    if c = 'Z' then (acc.reverse, some (none, rest))
    else if c = '+' then (acc.reverse, some (some false, rest))
    else if c = '-' then (acc.reverse, some (some true, rest))
    else splitOffsetAux rest (c :: acc)

/-- Parse a UTC-offset suffix body `HH:MM` into seconds. -/
def parseOffsetBody (l : List Char) : Option Int := do
  match splitOnChar ':' l with
  | [hs, ms] =>
    if hs.length = 2 && ms.length = 2 then do
      let h ← digitsToNat? hs
      let mi ← digitsToNat? ms
      if h ≤ 23 && mi ≤ 59 then return ((h : Int) * 3600 + (mi : Int) * 60)
      else none
    else none
  | _ => none

/-- Model of `dateutil.parser.isoparse`: parse an ISO-8601 timestamp to
seconds since the Unix epoch, `none` where dateutil raises `ValueError`.
A trailing offset (`Z`, `+HH:MM`, `-HH:MM`) is converted to UTC; a naive
timestamp is read on the same time line (see the module conventions). -/
def isoparse (s : String) : Option Int := do
  match splitOnChar 'T' s.data with
  | [ds, ts] =>
    let (y, mo, d) ← parseDatePart ds
    let (clock, suffix) := splitOffsetAux ts []
    let secs ← parseClockPart clock
    let off ←
      match suffix with
      | none => some 0
      | some (none, rest) => if rest.isEmpty then some 0 else none
      | some (some neg, rest) => do
        let o ← parseOffsetBody rest
        some (if neg then -o else o)
    return daysFromCivil y mo d * 86400 + secs - off
  | _ => none

/-- The idiom `ts = entry.get('timestamp', ''); parse if truthy else
fallback`, shared by `extract_usage_data` and `get_agent_info_from_log`:
a falsy timestamp field yields the fallback instant; a truthy string is fed
to `isoparse` (raising `ValueError` if it is not ISO-8601); a truthy
non-string raises `TypeError` inside `isoparse`. -/
def parseTsOr (fallback : Int) (ts : Json) : Except PyErr Int :=
  if ts.isTruthy then
    match ts with
    | .str s =>
      match isoparse s with
      | some t => .ok t
      | none => .error .valueError
    | _ => .error .typeError
  else .ok fallback

/-! ### Record Parser (`src/cctop/parsers/jsonl_parser.py`) -/

/-- One raw line of a JSONL log file, abstracted by the outcome of the two
standard-library calls the source applies to it: `blank` is a line whose
`strip()` is empty, `invalid` a line on which `json.loads` raises
`JSONDecodeError`, and `valid j` a line decoding to the JSON value `j`. -/
inductive RawLine where
  | blank : RawLine
  | invalid : RawLine
  | valid : Json → RawLine

/-- `JSONLParser.parse_log_file`.  The file argument is `none` when the file
is missing or the `open`/read raises `IOError`/`OSError` (both early-return
`[]`), and `some lines` when it is readable.  Blank lines are skipped by the
`continue`, undecodable lines by the `except JSONDecodeError: continue`;
decoded entries are appended in file order. -/
def parse_log_file : Option (List RawLine) → List Json
  | none => []
  | some lines =>
    lines.filterMap fun l =>
      match l with
      | .valid j => some j
      | _ => none

/-- The value object built by `extract_usage_data` (`models/usage.py`
`TokenUsage`).  The counter, model and request-id fields hold whatever JSON
value the record carried (Python performs no type check on dataclass
fields); the timestamp is an instant. -/
structure TokenUsage where
  input_tokens : Json
  output_tokens : Json
  cache_creation_tokens : Json
  cache_read_tokens : Json
  timestamp : Int
  model : Json
  request_id : Json

/-- The body of the `try:` block of `JSONLParser.extract_usage_data`, with
each exception a Python statement can raise surfaced as an `.error`. -/
def extract_usage_body (now : Int) (log_entry : Record) : Except PyErr (Option TokenUsage) := do
  let message := recGet log_entry "message" (.obj [])
  let usage ← dictGet message "usage" (.obj [])
  if !usage.isTruthy then return none
  let input_tokens ← dictGet usage "input_tokens" (.num 0)
  let output_tokens ← dictGet usage "output_tokens" (.num 0)
  let cache_creation_tokens ← dictGet usage "cache_creation_input_tokens" (.num 0)
  let cache_read_tokens ← dictGet usage "cache_read_input_tokens" (.num 0)
  let timestamp ← parseTsOr now (recGet log_entry "timestamp" (.str ""))
  let model ← dictGet message "model" (.str "")
  let request_id := recGet log_entry "requestId" (.str "")
  return some ⟨input_tokens, output_tokens, cache_creation_tokens,
    cache_read_tokens, timestamp, model, request_id⟩

/-- `JSONLParser.extract_usage_data`: the body under
`except (KeyError, ValueError, TypeError): return None`.  Any other
exception — in particular `AttributeError` from calling `.get` on a
non-dict — propagates to the caller. -/
def extract_usage_data (now : Int) (log_entry : Record) : Except PyErr (Option TokenUsage) :=
  match extract_usage_body now log_entry with
  | .error .keyError => .ok none
  | .error .valueError => .ok none
  | .error .typeError => .ok none
  | r => r

/-- The running accumulator of the entry loop in `get_agent_info_from_log`. -/
structure UsageAcc where
  total_input_tokens : Int
  total_output_tokens : Int
  total_cache_creation_tokens : Int
  total_cache_read_tokens : Int
  message_count : Int
  model : Json

/-- The `for entry in entries:` loop of `get_agent_info_from_log`: sum the
four counters of every usage-bearing entry (`int +=` raises `TypeError` on a
non-numeric counter), let a truthy model string override the previous one,
and count entries whose `type` is `user` or `assistant`. -/
def accumulate_usage (now : Int) : List Record → UsageAcc → Except PyErr UsageAcc
  | [], acc => .ok acc
  | entry :: rest, acc => do
    let usage_data ← extract_usage_data now entry
    let acc ←
      match usage_data with
      | some u => do
        let ti ← pyAdd acc.total_input_tokens u.input_tokens
        let tou ← pyAdd acc.total_output_tokens u.output_tokens
        let tcc ← pyAdd acc.total_cache_creation_tokens u.cache_creation_tokens
        let tcr ← pyAdd acc.total_cache_read_tokens u.cache_read_tokens
        let model := if u.model.isTruthy then u.model else acc.model
        pure (⟨ti, tou, tcc, tcr, acc.message_count, model⟩ : UsageAcc)
      | none => pure acc
    let tpe := recGet entry "type" .null
    let acc :=
      if tpe.eqStr "user" || tpe.eqStr "assistant" then
        { acc with message_count := acc.message_count + 1 }
      else acc
    accumulate_usage now rest acc

/-- The dictionary returned by `get_agent_info_from_log` for a non-empty
entry list. -/
structure AgentInfo where
  agent_id : Json
  slug : Json
  session_id : Json
  project_path : Json
  created_at : Int
  last_activity : Int
  total_input_tokens : Int
  total_output_tokens : Int
  total_cache_creation_tokens : Int
  total_cache_read_tokens : Int
  message_count : Int
  model : Json

/-- `JSONLParser.get_agent_info_from_log`.  Returns `none` for an empty
entry list (the source returns `{}`).  Metadata comes from the first entry;
`created_at` / `last_activity` from the first / last timestamps with
fallback to `now` / to `created_at` when the field is falsy.  The two
`isoparse` calls here are NOT wrapped in any `try`: a truthy, non-ISO-8601
timestamp on the first or last entry raises `ValueError` out of the
function (contrast `extract_usage_data`, which catches it). -/
def get_agent_info_from_log (now : Int) (entries : List Record) : Except PyErr (Option AgentInfo) := do
  match entries with
  | [] => return none
  | first :: rest =>
    let last := rest.getLastD first
    let agent_id := recGet first "agentId" (.str "")
    let slug := recGet first "slug" (.str "")
    let session_id := recGet first "sessionId" (.str "")
    let project_path := recGet first "cwd" (.str "")
    let created_at ← parseTsOr now (recGet first "timestamp" (.str ""))
    let last_activity ← parseTsOr created_at (recGet last "timestamp" (.str ""))
    let acc ← accumulate_usage now (first :: rest) ⟨0, 0, 0, 0, 0, .str ""⟩
    return some ⟨agent_id, slug, session_id, project_path, created_at, last_activity,
      acc.total_input_tokens, acc.total_output_tokens, acc.total_cache_creation_tokens,
      acc.total_cache_read_tokens, acc.message_count, acc.model⟩

/-- `JSONLParser.is_waiting_for_user`: an empty list gives `False`;
otherwise the last entry is inspected — if its `type` equals `"assistant"`,
the result is whether `message.stop_reason` equals `"end_turn"` (with
`message` defaulting to `{}` and `stop_reason` to `""`).  Fetching
`stop_reason` from a non-dict `message` raises `AttributeError`. -/
def is_waiting_for_user (entries : List Record) : Except PyErr Bool := do
  match entries with
  | [] => return false
  | first :: rest =>
    let last := rest.getLastD first
    if (recGet last "type" .null).eqStr "assistant" then
      let message := recGet last "message" (.obj [])
      let stop_reason ← dictGet message "stop_reason" (.str "")
      return stop_reason.eqStr "end_turn"
    else return false

/-! ### Agent Reconstructor and Status Classification (`src/cctop/parsers/aggregator.py`) -/

/-- `models/agent.py` `AgentStatus`. -/
inductive AgentStatus where
  | active : AgentStatus
  | idle : AgentStatus
  | waiting_for_user : AgentStatus
  | stopped : AgentStatus
deriving DecidableEq, Repr

/-- The todo-file side channel, as a map from a path (relative to the Claude
home directory) to the file's observable state: `none` when the path does not
exist; `some none` when it exists but reading or JSON-decoding fails (both
are swallowed by `except (json.JSONDecodeError, IOError): pass`); and
`some (some j)` when it exists and decodes to `j`. -/
abbrev TodoFS := String → Option (Option Json)

/-- The text `str(v)` interpolated for an identifier inside an f-string path
(container reprs are not modelled; the identifiers in scope are scalars). -/
def jsonIdStr : Json → String
  | .str s => s
  | .num n => toString n
  | .bool b => if b then "True" else "False"
  | .null => "None"
  | _ => ""

/-- One iteration of the `for todo_file in todo_patterns:` loop of
`DataAggregator._check_waiting_for_user`: if the file exists and decodes to
an empty JSON array, and the log's last entry has a truthy timestamp within
5 minutes of `now`, the agent counts as waiting.  A decode or read failure
is swallowed; but `isoparse` on a bad last timestamp raises `ValueError`
(and on a non-string `TypeError`), which the `except` clause does not
catch. -/
def todoPatternCheck (fs : TodoFS) (now : Int) (entries : List Record) (file : String) :
    Except PyErr Bool :=
  match fs file with
  | none => .ok false
  | some none => .ok false
  | some (some todos) =>
    match todos with
    | .arr [] =>
      match entries with
      | [] => .ok false
      | first :: rest =>
        let last := rest.getLastD first
        let last_timestamp := recGet last "timestamp" (.str "")
        if last_timestamp.isTruthy then
          match last_timestamp with
          | .str ts =>
            match isoparse ts with
            | some last_time => .ok (decide (now - last_time < 300))
            | none => .error .valueError
          | _ => .error .typeError
        else .ok false
    | _ => .ok false

/-- `DataAggregator._check_waiting_for_user`: first the last-message
heuristic `is_waiting_for_user`; then, when `session_id` is truthy, the two
candidate todo-file paths `todos/{session_id}.json` and
`todos/{session_id}-agent-{agent_id}.json`, in order. -/
def check_waiting_for_user (fs : TodoFS) (now : Int) (entries : List Record)
    (agent_id session_id : Json) : Except PyErr Bool := do
  if (← is_waiting_for_user entries) then return true
  if session_id.isTruthy then
    let r1 ← todoPatternCheck fs now entries ("todos/" ++ jsonIdStr session_id ++ ".json")
    if r1 then return true
    let r2 ← todoPatternCheck fs now entries
      ("todos/" ++ jsonIdStr session_id ++ "-agent-" ++ jsonIdStr agent_id ++ ".json")
    if r2 then return true
    return false
  else return false

/-- `DataAggregator._determine_agent_status`: the strict priority order
WAITING_FOR_USER, then ACTIVE (less than 30 seconds since the last
activity), then IDLE (less than 1 hour), then STOPPED. -/
def determine_agent_status (fs : TodoFS) (now : Int) (entries : List Record)
    (last_activity : Int) (agent_id session_id : Json) : Except PyErr AgentStatus := do
  let time_since_activity := now - last_activity
  if (← check_waiting_for_user fs now entries agent_id session_id) then
    return .waiting_for_user
  if time_since_activity < 30 then return .active
  if time_since_activity < 3600 then return .idle
  return .stopped

/-- The backward scan for the most recent truthy `cwd` in
`DataAggregator._parse_agent_log`, defaulting to the info's project path. -/
def findCurrentCwd (entries : List Record) (dflt : Json) : Json :=
  match entries.reverse.find? (fun e => (recGet e "cwd" .null).isTruthy) with
  | some e => recGet e "cwd" .null
  | none => dflt

/-- The Agent aggregate built by `DataAggregator._parse_agent_log`
(`models/agent.py` `Agent`, minus the cost property). -/
structure Agent where
  agent_id : Json
  slug : Json
  session_id : Json
  status : AgentStatus
  project_path : String
  current_cwd : Json
  created_at : Int
  last_activity : Int
  total_input_tokens : Int
  total_output_tokens : Int
  total_cache_creation_tokens : Int
  total_cache_read_tokens : Int
  message_count : Int
  model : Json

/-- `DataAggregator._parse_agent_log`, with the file already read and parsed
into `entries` (the `parse_log_file` step) and the log file's parent
directory passed as `log_parent`.  Returns `none` when the entry list is
empty or no truthy `agentId` is resolvable; any exception raised by
`get_agent_info_from_log` or the status check propagates to the caller
(`_scan_project_logs` / `scan_all_logs` have no handler either). -/
def parse_agent_log (fs : TodoFS) (now : Int) (entries : List Record) (log_parent : String) :
    Except PyErr (Option Agent) := do
  if entries.isEmpty then return none
  let info? ← get_agent_info_from_log now entries
  match info? with
  | none => return none
  | some info =>
    if !info.agent_id.isTruthy then return none
    let status ← determine_agent_status fs now entries info.last_activity
      info.agent_id info.session_id
    let current_cwd := findCurrentCwd entries info.project_path
    let slug ←
      if info.slug.isTruthy then pure info.slug
      else
        match info.agent_id with
        | .str s => pure (Json.str (String.mk (s.data.take 7)))
        | _ => .error .typeError
    return some ⟨info.agent_id, slug, info.session_id, status, log_parent, current_cwd,
      info.created_at, info.last_activity, info.total_input_tokens, info.total_output_tokens,
      info.total_cache_creation_tokens, info.total_cache_read_tokens,
      info.message_count, info.model⟩

/-! ### Reset schedule (`src/cctop/models/usage_metrics.py`) -/

/-- Python `datetime.weekday()` of the UTC instant `t` (Monday is 0,
Sunday is 6; the Unix epoch fell on a Thursday, weekday 3). -/
def weekday (t : Int) : Int :=
  (t / 86400 + 3) % 7

/-- `UsageMetrics.calculate_next_monday_utc`, with `datetime.now(timezone.utc)`
passed in as `now`: days-until-Monday is `(7 - weekday) % 7`, forced to 7
when it is 0; that many days are added and the result truncated to
00:00:00 UTC (`replace(hour=0, minute=0, second=0, microsecond=0)`). -/
def calculate_next_monday_utc (now : Int) : Int :=
  let days_until_monday := (7 - weekday now) % 7
  let days_until_monday := if days_until_monday = 0 then 7 else days_until_monday
  let next_monday := now + days_until_monday * 86400
  86400 * (next_monday / 86400)

/-! ### Python `decimal.Decimal` under the default context
(`src/cctop/utils/pricing.py`)

A finite `Decimal` is a coefficient–exponent pair denoting
`coeff * 10 ^ exp`.  Construction from an `int` or a numeric string is
exact; arithmetic results are rounded to the default context's 28
significant digits with ROUND_HALF_EVEN; `quantize` raises
`InvalidOperation` when the re-scaled coefficient would exceed 28 digits.
The context's exponent bounds (`Emin`/`Emax`, around ±10^6) are far beyond
anything reachable here and are not modelled. -/

/-- A finite Python `Decimal`: the value `coeff * 10 ^ exp`. -/
structure PyDecimal where
  coeff : Int
  exp : Int
deriving DecidableEq, Repr

/-- Number of decimal digits of `n` (with `0` counting one digit), computed
with structural fuel. -/
def numDigitsAux : Nat → Nat → Nat
  | 0, _ => 1
  | fuel + 1, n => if n < 10 then 1 else numDigitsAux fuel (n / 10) + 1

/-- Number of decimal digits of `n` (with `0` counting one digit). -/
def numDigits (n : Nat) : Nat :=
  numDigitsAux n n

/-- Round `c / m` to the nearest natural number, ties to even
(ROUND_HALF_EVEN), for `m > 0`. -/
def roundHalfEvenNat (c m : Nat) : Nat :=
  let q := c / m
  let r := c % m
  if 2 * r < m then q
  else if m < 2 * r then q + 1
  else if q % 2 = 0 then q else q + 1

/-- Round `c / 10 ^ k` to the nearest integer, ties to even; Python's
rounding is symmetric about zero. -/
def roundHalfEven10 (c : Int) (k : Nat) : Int :=
  if 0 ≤ c then (roundHalfEvenNat c.toNat (10 ^ k) : Int)
  else -(roundHalfEvenNat c.natAbs (10 ^ k) : Int)

/-- Rounding of an exact arithmetic result to the default context's 28
significant digits (ROUND_HALF_EVEN), as the `decimal` module applies after
every `+` and `*`. -/
def ctxRound (d : PyDecimal) : PyDecimal :=
  let nd := numDigits d.coeff.natAbs
  if nd ≤ 28 then d
  else ⟨roundHalfEven10 d.coeff (nd - 28), d.exp + (nd - 28)⟩

/-- `Decimal * Decimal` under the default context: exact product, then
context rounding. -/
def decMul (a b : PyDecimal) : PyDecimal :=
  ctxRound ⟨a.coeff * b.coeff, a.exp + b.exp⟩

/-- `Decimal + Decimal` under the default context: exact sum at the smaller
exponent, then context rounding. -/
def decAdd (a b : PyDecimal) : PyDecimal :=
  let e := min a.exp b.exp
  ctxRound ⟨a.coeff * 10 ^ (a.exp - e).toNat + b.coeff * 10 ^ (b.exp - e).toNat, e⟩

/-- `Decimal.quantize` to exponent `e` under the default context
(ROUND_HALF_EVEN): re-scale the coefficient to exponent `e`, rounding when
digits are dropped; raise `InvalidOperation` (`.error`) when the resulting
coefficient has more than 28 digits. -/
def decQuantize (d : PyDecimal) (e : Int) : Except Unit PyDecimal :=
  let c : Int :=
    if e ≤ d.exp then d.coeff * 10 ^ (d.exp - e).toNat
    else roundHalfEven10 d.coeff (e - d.exp).toNat
  if numDigits c.natAbs ≤ 28 then .ok ⟨c, e⟩ else .error ()

/-- A per-token rate quadruple, the value type of the pricing tables. -/
structure RateQuad where
  input : PyDecimal
  output : PyDecimal
  cache_creation : PyDecimal
  cache_read : PyDecimal
deriving DecidableEq, Repr

/-- `pricing.DEFAULT_PRICING`: the last-resort fallback rates
`{input: 0.000003, output: 0.000015, cache_creation: 0.00000375,
cache_read: 0.0000003}` (coefficient/exponent pairs exactly as the
`Decimal` string constructor produces them). -/
def DEFAULT_PRICING : RateQuad :=
  ⟨⟨3, -6⟩, ⟨15, -6⟩, ⟨375, -8⟩, ⟨3, -7⟩⟩

/-! Character-level helpers for `normalize_model_name` (the source uses
`str.lower`, `str.replace`, `in` and `str.split`). -/

/-- ASCII lower-casing of one character. -/
def lowerChar (c : Char) : Char :=
  if 65 ≤ c.toNat && c.toNat ≤ 90 then Char.ofNat (c.toNat + 32) else c

/-- Whether `pat` occurs at the head of `l`. -/
def listStartsWith : List Char → List Char → Bool
  | [], _ => true
  | _ :: _, [] => false
  | p :: ps, c :: cs => p = c && listStartsWith ps cs

/-- Remove every occurrence of `pat` (Python `s.replace(pat, '')`),
scanning left to right with structural fuel. -/
def removeAllAux (pat : List Char) : Nat → List Char → List Char
  | 0, l => l
  | _ + 1, [] => []
  | fuel + 1, l@(c :: rest) =>
    if listStartsWith pat l then removeAllAux pat fuel (l.drop pat.length)
    else c :: removeAllAux pat fuel rest

/-- Remove every occurrence of `pat` (Python `s.replace(pat, '')`). -/
def removeAll (pat l : List Char) : List Char :=
  removeAllAux pat l.length l

/-- Whether `pat` occurs anywhere in `l` (Python `pat in s`). -/
def containsPat (pat : List Char) : List Char → Bool
  | [] => pat.isEmpty
  | c :: cs => listStartsWith pat (c :: cs) || containsPat pat cs

/-- The characters before the first occurrence of `pat`
(Python `s.split(pat)[0]`). -/
def takeUntilPat (pat : List Char) : List Char → List Char
  | [] => []
  | c :: cs => if listStartsWith pat (c :: cs) then [] else c :: takeUntilPat pat cs

/-- `pricing.normalize_model_name`: lower-case, strip the `anthropic.` and
`bedrock/` provider prefixes, cut at a `-v` version suffix, then match the
Claude model families; an unmatched name is returned unchanged (the
original, not the lowered form). -/
def normalize_model_name (model : String) : String :=
  let cs := model.data.map lowerChar
  let cs := removeAll "anthropic.".data cs
  let cs := removeAll "bedrock/".data cs
  let cs := if containsPat "-v".data cs then takeUntilPat "-v".data cs else cs
  if containsPat "opus-4".data cs || containsPat "opus-4-5".data cs then "claude-opus-4-5"
  else if containsPat "sonnet-4".data cs || containsPat "sonnet-4-5".data cs then "claude-sonnet-4-5"
  else if containsPat "3-5-sonnet".data cs || containsPat "3.5-sonnet".data cs then "claude-3-5-sonnet"
  else if containsPat "3-opus".data cs || containsPat "3.0-opus".data cs then "claude-3-opus"
  else if containsPat "3-5-haiku".data cs || containsPat "3.5-haiku".data cs then "claude-3-5-haiku"
  else if containsPat "3-haiku".data cs || containsPat "3.0-haiku".data cs then "claude-3-haiku"
  else model

/-- `pricing.get_pricing`: look the normalized name up in the process-wide
pricing table (modelled as an explicit association list), falling back to
`DEFAULT_PRICING` for unrecognized models. -/
def get_pricing (pricing_table : List (String × RateQuad)) (model : String) : RateQuad :=
  (List.lookup (normalize_model_name model) pricing_table).getD DEFAULT_PRICING

/-- `pricing.calculate_cost`: each token count (an exact `Decimal(int)`)
times its rate, summed left to right as in the source, then quantized to
`Decimal('0.000001')`, i.e. to exponent -6. -/
def calculate_cost (pricing_table : List (String × RateQuad)) (model : String)
    (input_tokens output_tokens cache_creation_tokens cache_read_tokens : Int) :
    Except Unit PyDecimal :=
  let pricing := get_pricing pricing_table model
  let input_cost := decMul ⟨input_tokens, 0⟩ pricing.input
  let output_cost := decMul ⟨output_tokens, 0⟩ pricing.output
  let cache_creation_cost := decMul ⟨cache_creation_tokens, 0⟩ pricing.cache_creation
  let cache_read_cost := decMul ⟨cache_read_tokens, 0⟩ pricing.cache_read
  let total := decAdd (decAdd (decAdd input_cost output_cost) cache_creation_cost) cache_read_cost
  decQuantize total (-6)

/-! ### Pricing cache (`src/cctop/utils/pricing_cache.py`)

The cache file is the JSON document
`{version, fetched_at, ttl_hours, pricing: {model -> rate strings}}`.
`save_to_cache` serializes each rate with `str(Decimal)` and
`load_from_cache` re-constructs it with `Decimal(str)`; Python's
to-scientific-string form is injective and the `Decimal` string constructor
inverts it exactly, reproducing the same coefficient and exponent, so a
serialized rate is modelled by its `PyDecimal` pair.  `fetched_at` is
written as `datetime.now(timezone.utc).isoformat()` and re-read with
`datetime.fromisoformat`, an exact round trip, so it is modelled by the
instant itself. -/

/-- The on-disk pricing cache document written by `save_to_cache`. -/
structure CacheDoc where
  version : String
  fetched_at : Int
  ttl_hours : Int
  pricing : List (String × RateQuad)

/-- `pricing_cache.CACHE_TTL_HOURS`. -/
def CACHE_TTL_HOURS : Int := 24

/-- The `str(...)` serialization of one rate quadruple in `save_to_cache`
(field by field, as the source builds `pricing_json[model]`). -/
def serializeRates (r : RateQuad) : RateQuad :=
  ⟨r.input, r.output, r.cache_creation, r.cache_read⟩

/-- The `Decimal(...)` re-construction of one rate quadruple in
`load_from_cache` (field by field; on a saved document every string parses,
so the `except (KeyError, ValueError): continue` arm is not taken). -/
def convertRates (r : RateQuad) : RateQuad :=
  ⟨r.input, r.output, r.cache_creation, r.cache_read⟩

/-- `pricing_cache.save_to_cache` with the wall clock passed as `now`:
write version 1.0, the fetch instant, the 24-hour TTL and the serialized
table.  (The write-to-temp-then-rename discipline concerns the file system,
not the document, and is not modelled.) -/
def save_to_cache (pricing_data : List (String × RateQuad)) (now : Int) : CacheDoc :=
  { version := "1.0"
    fetched_at := now
    ttl_hours := CACHE_TTL_HOURS
    pricing := pricing_data.map fun p => (p.1, serializeRates p.2) }

/-- `pricing_cache.load_from_cache` reading the document `doc` at instant
`now`: the three structure keys are present in any written document; the
cache is rejected (`None`) when `now` has reached `fetched_at + ttl_hours`
or when the pricing table is empty; otherwise every rate is re-constructed
from its string. -/
def load_from_cache (doc : CacheDoc) (now : Int) : Option (List (String × RateQuad)) :=
  if doc.fetched_at + doc.ttl_hours * 3600 ≤ now then none
  else
    let pricing_data := doc.pricing.map fun p => (p.1, convertRates p.2)
    if pricing_data.isEmpty then none
    else some pricing_data

/-! ### Specification-side definitions and concrete inputs for the claims -/

/-- Specification-side restatement of `isWaitingForUser` (spec §4.1/§8):
true iff the sequence is non-empty, the last record's `type` is
`"assistant"`, and that record's `message.stop_reason` is exactly
`"end_turn"`. -/
def spec_waiting_for_user (entries : List Record) : Bool :=
  match entries with
  | [] => false
  | first :: rest =>
    let last := rest.getLastD first
    (recGet last "type" .null).eqStr "assistant" &&
      (match recGet last "message" (.obj []) with
       | .obj message => (recGet message "stop_reason" .null).eqStr "end_turn"
       | _ => false)

/-- Well-shapedness of the last record for the `is_waiting_for_user` check:
when its `type` is `"assistant"`, its `message` field (defaulted to `{}`)
must be a dict — the domain on which the source's `.get` chain cannot raise
`AttributeError`. -/
def lastMessageShapeOk (entries : List Record) : Bool :=
  match entries with
  | [] => true
  | first :: rest =>
    let last := rest.getLastD first
    if (recGet last "type" .null).eqStr "assistant" then
      (recGet last "message" (.obj [])).isObj
    else true

/-- A one-record log whose truthy `timestamp` is not ISO-8601 but whose
`agentId` is resolvable (the C1 failing input). -/
def badTsEntries : List Record :=
  [[("agentId", Json.str "agent-1"), ("timestamp", Json.str "not-a-date")]]

/-- A record whose `message` field is a string rather than an object
(the C2 failing input). -/
def nonDictMessageEntry : Record :=
  [("message", Json.str "hi")]

/-- A log whose last record is an assistant message carrying a non-dict
`message` value (the C5 counterexample input). -/
def nonDictMessageLast : List Record :=
  [[("type", Json.str "assistant"), ("message", Json.num 5)]]

/-- A one-record log whose last record is an assistant message stopped with
`end_turn` (satisfies the waiting-for-user criterion). -/
def endTurnEntries : List Record :=
  [[("type", Json.str "assistant"),
    ("message", Json.obj [("stop_reason", Json.str "end_turn")])]]

/-- The empty todo-file side channel: no todo file exists. -/
def emptyFS : TodoFS := fun _ => none

/-- The 4-line scenario of spec §8: user; assistant with usage
{100, 50, 10, 5}; user; assistant with usage {150, 75, 0, 20}. -/
def scenarioEntries : List Record :=
  [ [("type", Json.str "user"), ("agentId", Json.str "test-agent-123"),
     ("slug", Json.str "test-agent"), ("sessionId", Json.str "session-456"),
     ("cwd", Json.str "/home/user/project"),
     ("timestamp", Json.str "2026-01-04T10:00:00Z")],
    [("type", Json.str "assistant"), ("timestamp", Json.str "2026-01-04T10:00:05Z"),
     ("requestId", Json.str "req-1"),
     ("message", Json.obj
       [("model", Json.str "claude-sonnet-4-5-20250929"),
        ("usage", Json.obj
          [("input_tokens", Json.num 100), ("output_tokens", Json.num 50),
           ("cache_creation_input_tokens", Json.num 10),
           ("cache_read_input_tokens", Json.num 5)])])],
    [("type", Json.str "user"), ("timestamp", Json.str "2026-01-04T10:01:00Z")],
    [("type", Json.str "assistant"), ("timestamp", Json.str "2026-01-04T10:01:05Z"),
     ("requestId", Json.str "req-2"),
     ("message", Json.obj
       [("model", Json.str "claude-sonnet-4-5-20250929"),
        ("stop_reason", Json.str "end_turn"),
        ("usage", Json.obj
          [("input_tokens", Json.num 150), ("output_tokens", Json.num 75),
           ("cache_creation_input_tokens", Json.num 0),
           ("cache_read_input_tokens", Json.num 20)])])] ]

/-- The counter fields of a `get_agent_info_from_log` result: the four
token totals and the message count, when the call returned an info dict. -/
def infoCounters : Except PyErr (Option AgentInfo) → Option (Int × Int × Int × Int × Int)
  | .ok (some i) => some (i.total_input_tokens, i.total_output_tokens,
      i.total_cache_creation_tokens, i.total_cache_read_tokens, i.message_count)
  | _ => none

/-- Non-negativity of a rate quadruple (every coefficient is non-negative;
the exponent scale `10 ^ exp` is positive, so this is non-negativity of the
four rate values). -/
def RateQuadNonneg (q : RateQuad) : Prop :=
  0 ≤ q.input.coeff ∧ 0 ≤ q.output.coeff ∧
    0 ≤ q.cache_creation.coeff ∧ 0 ≤ q.cache_read.coeff

instance (q : RateQuad) : Decidable (RateQuadNonneg q) := by
  unfold RateQuadNonneg; infer_instance

/-! ### Theorems about the claims -/

/-- C1: the claim says a record with a truthy, non-ISO-8601 `timestamp` is
recovered locally by `get_agent_info_from_log` and the per-file
reconstruction.  The code violates this: the two `isoparse` calls of
`get_agent_info_from_log` are unguarded, so on a log whose first (or last)
entry has such a timestamp the extraction and the entire reconstruction
evaluate to an uncaught `ValueError`, which `_parse_agent_log`,
`_scan_project_logs` and `scan_all_logs` all propagate to the caller. -/
theorem claim_C1_bad_timestamp_crashes (now : Int) :
    get_agent_info_from_log now badTsEntries = .error .valueError ∧
    parse_agent_log emptyFS now badTsEntries "/proj" = .error .valueError :=
  ⟨rfl, rfl⟩

/-- C2: the claim says `extract_usage_data` returns absent rather than
raising whenever any field access fails.  The code violates this: its
`except` clause catches only `KeyError`, `ValueError` and `TypeError`, so a
record whose `message` value is not a dict (here the string `"hi"`) makes
`message.get('usage', {})` raise an uncaught `AttributeError`. -/
theorem claim_C2_non_dict_message_raises (now : Int) :
    extract_usage_data now nonDictMessageEntry = .error .attributeError :=
  rfl

/-- C3: whenever the waiting-for-user criterion of
`_check_waiting_for_user` holds (the last-message heuristic or the
todo-file side channel), `_determine_agent_status` classifies the agent as
WAITING_FOR_USER for every value of the last-activity timestamp — in
particular also when less than 30 seconds have elapsed and the ACTIVE
criterion holds as well: the priority order is absolute. -/
theorem claim_C3_waiting_priority (fs : TodoFS) (now : Int) (entries : List Record)
    (last_activity : Int) (agent_id session_id : Json)
    (h : check_waiting_for_user fs now entries agent_id session_id = .ok true) :
    determine_agent_status fs now entries last_activity agent_id session_id =
      .ok .waiting_for_user := by
  unfold determine_agent_status
  rw [h]
  rfl

/-- Witness for C3 at a concrete input: a log ending in an assistant
message stopped with `end_turn`, observed zero seconds after its last
activity (so the ACTIVE criterion holds too), is WAITING_FOR_USER. -/
theorem claim_C3_witness :
    check_waiting_for_user emptyFS 0 endTurnEntries (Json.str "a") (Json.str "s") = .ok true ∧
    determine_agent_status emptyFS 0 endTurnEntries 0 (Json.str "a") (Json.str "s") =
      .ok .waiting_for_user :=
  ⟨rfl, claim_C3_waiting_priority emptyFS 0 endTurnEntries 0 (Json.str "a") (Json.str "s") rfl⟩

/-- C4: with the waiting-for-user check failing, an elapsed time of exactly
30 seconds classifies as IDLE, not ACTIVE, and exactly 1 hour as STOPPED,
not IDLE — both comparisons are strict `<`. -/
theorem claim_C4_boundaries (fs : TodoFS) (entries : List Record) (agent_id session_id : Json)
    (last_activity now1 now2 : Int)
    (h1 : check_waiting_for_user fs now1 entries agent_id session_id = .ok false)
    (h2 : check_waiting_for_user fs now2 entries agent_id session_id = .ok false)
    (e1 : now1 - last_activity = 30) (e2 : now2 - last_activity = 3600) :
    determine_agent_status fs now1 entries last_activity agent_id session_id = .ok .idle ∧
    determine_agent_status fs now2 entries last_activity agent_id session_id = .ok .stopped := by
  constructor
  · unfold determine_agent_status
    rw [h1, e1]
    rfl
  · unfold determine_agent_status
    rw [h2, e2]
    rfl

/-- Witness for C4 at a concrete input: an empty log (the check fails),
last activity at 0, observed at 30 seconds and at 3600 seconds. -/
theorem claim_C4_witness :
    check_waiting_for_user emptyFS 30 [] (Json.str "") (Json.str "") = .ok false ∧
    check_waiting_for_user emptyFS 3600 [] (Json.str "") (Json.str "") = .ok false ∧
    determine_agent_status emptyFS 30 [] 0 (Json.str "") (Json.str "") = .ok .idle ∧
    determine_agent_status emptyFS 3600 [] 0 (Json.str "") (Json.str "") = .ok .stopped := by
  have h := claim_C4_boundaries emptyFS [] (Json.str "") (Json.str "") 0 30 3600
    rfl rfl rfl rfl
  exact ⟨rfl, rfl, h.1, h.2⟩

/-- The stop-reason comparison does not depend on whether the missing-key
default is the empty string (as in the source) or `None` (as in the
specification-side predicate): neither equals `"end_turn"`. -/
theorem eqStr_stop_default (m : Record) :
    (recGet m "stop_reason" (.str "")).eqStr "end_turn" =
    (recGet m "stop_reason" .null).eqStr "end_turn" := by
  unfold recGet
  cases m.find? (fun p => p.1 == "stop_reason") <;> rfl

/-- C5 counterexample: the claim says `is_waiting_for_user` returns false
for every record sequence whose last record is not an assistant message
stopped with `end_turn`.  On a log whose last record has type
`"assistant"` but a non-dict `message` value (here the number 5) the
function instead raises `AttributeError` from
`message.get('stop_reason', '')`, so it does not return false there. -/
theorem claim_C5_counterexample :
    is_waiting_for_user nonDictMessageLast = .error .attributeError ∧
    spec_waiting_for_user nonDictMessageLast = false :=
  ⟨rfl, rfl⟩

/-- C5 amended: on every record sequence whose last record, when typed
`"assistant"`, carries a dict (or no) `message` value — the domain on which
the `.get` chain cannot raise — `is_waiting_for_user` returns exactly the
specification predicate: true iff the sequence is non-empty, the last
record's type is `"assistant"` and its `message.stop_reason` is exactly
`"end_turn"`; false for the empty sequence and every other combination. -/
theorem claim_C5_amended (entries : List Record) (h : lastMessageShapeOk entries = true) :
    is_waiting_for_user entries = .ok (spec_waiting_for_user entries) := by
  match entries with
  | [] => rfl
  | first :: rest =>
    show (if (recGet (rest.getLastD first) "type" .null).eqStr "assistant" = true then
        do
          let stop_reason ← dictGet (recGet (rest.getLastD first) "message" (.obj []))
            "stop_reason" (.str "")
          pure (stop_reason.eqStr "end_turn")
        else pure false) =
      Except.ok ((recGet (rest.getLastD first) "type" .null).eqStr "assistant" &&
        (match recGet (rest.getLastD first) "message" (.obj []) with
         | Json.obj message => (recGet message "stop_reason" .null).eqStr "end_turn"
         | _ => false))
    have h' : (if (recGet (rest.getLastD first) "type" .null).eqStr "assistant" = true then
        (recGet (rest.getLastD first) "message" (.obj [])).isObj else true) = true := h
    by_cases ht : (recGet (rest.getLastD first) "type" .null).eqStr "assistant" = true
    · rw [if_pos ht] at h' ⊢
      rw [ht]
      cases hmsg : recGet (rest.getLastD first) "message" (.obj []) with
      | obj message =>
        have e1 : (do
            let stop_reason ← dictGet (Json.obj message) "stop_reason" (Json.str "")
            pure (stop_reason.eqStr "end_turn") : Except PyErr Bool) =
            Except.ok ((recGet message "stop_reason" (Json.str "")).eqStr "end_turn") := rfl
        rw [e1, eqStr_stop_default]
        rfl
      | null => rw [hmsg] at h'; simp [Json.isObj] at h'
      | bool b => rw [hmsg] at h'; simp [Json.isObj] at h'
      | num n => rw [hmsg] at h'; simp [Json.isObj] at h'
      | str s => rw [hmsg] at h'; simp [Json.isObj] at h'
      | arr l => rw [hmsg] at h'; simp [Json.isObj] at h'
    · rw [if_neg ht]
      rw [Bool.not_eq_true] at ht
      rw [ht]
      rfl

/-- Witness for C5 at a concrete input: an assistant `end_turn` last record
with a dict message satisfies the shape condition and the check agrees with
the specification predicate (both true). -/
theorem claim_C5_witness :
    lastMessageShapeOk endTurnEntries = true ∧
    is_waiting_for_user endTurnEntries = .ok (spec_waiting_for_user endTurnEntries) ∧
    spec_waiting_for_user endTurnEntries = true :=
  ⟨rfl, claim_C5_amended endTurnEntries rfl, rfl⟩

/-- C6: for every instant, `calculate_next_monday_utc` yields a timestamp
at 00:00:00 UTC (a multiple of 86400 seconds) strictly in the future, and
when the instant falls on a Monday (weekday 0) the result is exactly the
current day's midnight plus 7 days — never the same day. -/
theorem claim_C6_next_monday (now : Int) :
    calculate_next_monday_utc now % 86400 = 0 ∧
    now < calculate_next_monday_utc now ∧
    (weekday now = 0 → calculate_next_monday_utc now = 86400 * (now / 86400) + 7 * 86400) := by
  have key : calculate_next_monday_utc now =
      86400 * ((now + (if (7 - (now / 86400 + 3) % 7) % 7 = 0 then 7
        else (7 - (now / 86400 + 3) % 7) % 7) * 86400) / 86400) := rfl
  refine ⟨?_, ?_, fun h => ?_⟩
  · rw [key]; split_ifs <;> omega
  · rw [key]; split_ifs <;> omega
  · unfold weekday at h
    rw [key]; split_ifs <;> omega

/-- Witness for C6 at a concrete input: 1970-01-05 (a Monday) at 01:00 UTC
maps to 1970-01-12 00:00 UTC, seven days ahead. -/
theorem claim_C6_witness :
    weekday 349200 = 0 ∧ calculate_next_monday_utc 349200 = 950400 :=
  ⟨rfl, ((claim_C6_next_monday 349200).2.2 rfl).trans (by decide)⟩

/-- C7: `parse_log_file` yields the empty sequence for a missing or
unreadable file; on a readable file it yields exactly the decoded records
in file order — an all-valid file reproduces its records, and inserting a
blank or an undecodable line anywhere leaves the result unchanged, while
inserting a decodable line inserts exactly its record at that position. -/
theorem claim_C7_parse :
    parse_log_file none = [] ∧
    (∀ js : List Json, parse_log_file (some (js.map RawLine.valid)) = js) ∧
    (∀ pre post, parse_log_file (some (pre ++ RawLine.blank :: post)) =
      parse_log_file (some (pre ++ post))) ∧
    (∀ pre post, parse_log_file (some (pre ++ RawLine.invalid :: post)) =
      parse_log_file (some (pre ++ post))) ∧
    (∀ pre post j, parse_log_file (some (pre ++ RawLine.valid j :: post)) =
      parse_log_file (some pre) ++ j :: parse_log_file (some post)) := by
  refine ⟨rfl, ?_, ?_, ?_, ?_⟩
  · intro js
    induction js with
    | nil => rfl
    | cons a l ih => simpa [parse_log_file] using ih
  · intro pre post
    simp [parse_log_file, List.filterMap_append]
  · intro pre post
    simp [parse_log_file, List.filterMap_append]
  · intro pre post j
    simp [parse_log_file, List.filterMap_append]

/-- C8: folding the 4-record scenario (user; assistant with usage
{100, 50, 10, 5}; user; assistant with usage {150, 75, 0, 20}) yields
total_input_tokens 250, total_output_tokens 125, total_cache_creation 10,
total_cache_read 25 and message_count 4, for every current time. -/
theorem claim_C8_scenario (now : Int) :
    infoCounters (get_agent_info_from_log now scenarioEntries) =
      some (250, 125, 10, 25, 4) := rfl

/-- Looking a key up after mapping a function over the values commutes with
the map. -/
theorem lookup_map_snd {β γ : Type} (f : β → γ) (m : String) :
    ∀ l : List (String × β),
      List.lookup m (l.map fun p => (p.1, f p.2)) = (List.lookup m l).map f
  | [] => rfl
  | (a, b) :: rest => by
    by_cases hm : (m == a) = true
    · simp [List.lookup, hm]
    · simp only [List.map, List.lookup, Bool.not_eq_true] at *
      rw [hm]
      exact lookup_map_snd f m rest

/-- C9: saving a pricing table to the cache and loading it straight back
(at the same instant, well inside the 24-hour TTL) succeeds and reproduces,
for every model key, exactly the original rate quadruple. -/
theorem claim_C9_roundtrip (table : List (String × RateQuad)) (now : Int) (m : String)
    (q : RateQuad) (h : List.lookup m table = some q) :
    (load_from_cache (save_to_cache table now) now).bind (List.lookup m) = some q := by
  cases table with
  | nil => simp [List.lookup] at h
  | cons a rest =>
    have key : load_from_cache (save_to_cache (a :: rest) now) now =
        some (((a :: rest).map fun p => (p.1, serializeRates p.2)).map
          fun p => (p.1, convertRates p.2)) := by
      unfold load_from_cache save_to_cache
      rw [if_neg (by simp only [CACHE_TTL_HOURS]; omega)]
      rfl
    rw [key]
    have hb : (some (((a :: rest).map fun p => (p.1, serializeRates p.2)).map
        fun p => (p.1, convertRates p.2))).bind (List.lookup m) =
        List.lookup m (((a :: rest).map fun p => (p.1, serializeRates p.2)).map
          fun p => (p.1, convertRates p.2)) := rfl
    rw [hb, lookup_map_snd, lookup_map_snd, h]
    rfl

/-- Witness for C9 at a concrete input: a one-model table round-trips. -/
theorem claim_C9_witness :
    List.lookup "claude-sonnet-4-5" [("claude-sonnet-4-5", DEFAULT_PRICING)] =
      some DEFAULT_PRICING ∧
    (load_from_cache (save_to_cache [("claude-sonnet-4-5", DEFAULT_PRICING)] 0) 0).bind
      (List.lookup "claude-sonnet-4-5") = some DEFAULT_PRICING :=
  ⟨rfl, claim_C9_roundtrip [("claude-sonnet-4-5", DEFAULT_PRICING)] 0 "claude-sonnet-4-5"
    DEFAULT_PRICING rfl⟩

/-- C10 counterexample: the claim says `calculate_cost` returns a quantized
amount for all non-negative integer token counts.  At 10^30 input tokens
(default rates, cost 3·10^24 USD) the re-scaled coefficient would carry 31
digits, beyond the default context's 28-digit precision, so
`total.quantize(Decimal('0.000001'))` raises `decimal.InvalidOperation`
instead of returning. -/
theorem claim_C10_counterexample :
    calculate_cost [] "claude-unknown" (10 ^ 30) 0 0 0 = .error () := rfl

/-- Half-even rounding of a non-negative numerator stays non-negative. -/
theorem roundHalfEven10_nonneg (c : Int) (k : Nat) (h : 0 ≤ c) : 0 ≤ roundHalfEven10 c k := by
  unfold roundHalfEven10
  rw [if_pos h]
  exact Int.ofNat_nonneg _

/-- Context rounding preserves a non-negative coefficient. -/
theorem ctxRound_nonneg (d : PyDecimal) (h : 0 ≤ d.coeff) : 0 ≤ (ctxRound d).coeff := by
  have key : ctxRound d =
      if numDigits d.coeff.natAbs ≤ 28 then d
      else ⟨roundHalfEven10 d.coeff (numDigits d.coeff.natAbs - 28),
        d.exp + (numDigits d.coeff.natAbs - 28)⟩ := rfl
  rw [key]
  split_ifs
  · exact h
  · exact roundHalfEven10_nonneg _ _ h

/-- A product of Decimals with non-negative coefficients has a non-negative
coefficient. -/
theorem decMul_nonneg (a b : PyDecimal) (ha : 0 ≤ a.coeff) (hb : 0 ≤ b.coeff) :
    0 ≤ (decMul a b).coeff :=
  ctxRound_nonneg _ (mul_nonneg ha hb)

/-- A sum of Decimals with non-negative coefficients has a non-negative
coefficient. -/
theorem decAdd_nonneg (a b : PyDecimal) (ha : 0 ≤ a.coeff) (hb : 0 ≤ b.coeff) :
    0 ≤ (decAdd a b).coeff :=
  ctxRound_nonneg _ (add_nonneg
    (mul_nonneg ha (pow_nonneg (by norm_num) _))
    (mul_nonneg hb (pow_nonneg (by norm_num) _)))

/-- When `quantize` succeeds on a Decimal with non-negative coefficient,
the result carries exactly the requested exponent and a non-negative
coefficient. -/
theorem decQuantize_ok (d : PyDecimal) (e : Int) (r : PyDecimal) (h0 : 0 ≤ d.coeff)
    (h : decQuantize d e = .ok r) : r.exp = e ∧ 0 ≤ r.coeff := by
  have key : decQuantize d e =
      if numDigits (if e ≤ d.exp then d.coeff * 10 ^ (d.exp - e).toNat
          else roundHalfEven10 d.coeff (e - d.exp).toNat).natAbs ≤ 28 then
        Except.ok (⟨if e ≤ d.exp then d.coeff * 10 ^ (d.exp - e).toNat
          else roundHalfEven10 d.coeff (e - d.exp).toNat, e⟩ : PyDecimal)
      else .error () := rfl
  rw [key] at h
  split_ifs at h <;>
    first
      | exact Except.noConfusion h
      | (injection h with h; subst h;
          exact ⟨rfl, mul_nonneg h0 (pow_nonneg (by norm_num) _)⟩)
      | (injection h with h; subst h;
          exact ⟨rfl, roundHalfEven10_nonneg _ _ h0⟩)

/-- A successful lookup exhibits membership (string keys compare by
equality). -/
theorem lookup_mem {β : Type} (m : String) (q : β) :
    ∀ l : List (String × β), List.lookup m l = some q → (m, q) ∈ l
  | [], h => by simp [List.lookup] at h
  | (a, b) :: rest, h => by
    by_cases hm : (m == a) = true
    · have ha : m = a := eq_of_beq hm
      have hb : b = q := by simpa [List.lookup, hm] using h
      subst ha
      subst hb
      exact List.mem_cons_self _ _
    · have h' : List.lookup m rest = some q := by simpa [List.lookup, hm] using h
      exact List.mem_cons_of_mem _ (lookup_mem m q rest h')

/-- C10 amended: for all non-negative token counts and every pricing table
with non-negative rates (the default fallback rates are non-negative too),
whenever the final `quantize` succeeds — i.e. the quantized coefficient
stays within the default context's 28 significant digits —
`calculate_cost` returns a Decimal with exponent -6 (an exact integer
multiple of 10^-6 USD, since the value is `coeff * 10 ^ exp`) and a
non-negative coefficient, hence a non-negative amount. -/
theorem claim_C10_amended (tbl : List (String × RateQuad)) (model : String)
    (i o cc cr : Int) (d : PyDecimal)
    (hi : 0 ≤ i) (ho : 0 ≤ o) (hcc : 0 ≤ cc) (hcr : 0 ≤ cr)
    (htbl : ∀ m q, (m, q) ∈ tbl → RateQuadNonneg q)
    (h : calculate_cost tbl model i o cc cr = .ok d) :
    d.exp = -6 ∧ 0 ≤ d.coeff := by
  have hp : RateQuadNonneg (get_pricing tbl model) := by
    unfold get_pricing
    cases hlk : List.lookup (normalize_model_name model) tbl with
    | none => exact (by decide : RateQuadNonneg DEFAULT_PRICING)
    | some q => exact htbl _ q (lookup_mem _ _ _ hlk)
  obtain ⟨hp1, hp2, hp3, hp4⟩ := hp
  have h' : decQuantize
      (decAdd (decAdd (decAdd
        (decMul ⟨i, 0⟩ (get_pricing tbl model).input)
        (decMul ⟨o, 0⟩ (get_pricing tbl model).output))
        (decMul ⟨cc, 0⟩ (get_pricing tbl model).cache_creation))
        (decMul ⟨cr, 0⟩ (get_pricing tbl model).cache_read)) (-6) = .ok d := h
  have htot : 0 ≤ (decAdd (decAdd (decAdd
      (decMul ⟨i, 0⟩ (get_pricing tbl model).input)
      (decMul ⟨o, 0⟩ (get_pricing tbl model).output))
      (decMul ⟨cc, 0⟩ (get_pricing tbl model).cache_creation))
      (decMul ⟨cr, 0⟩ (get_pricing tbl model).cache_read)).coeff := by
    apply decAdd_nonneg
    apply decAdd_nonneg
    apply decAdd_nonneg
    · exact decMul_nonneg _ _ hi hp1
    · exact decMul_nonneg _ _ ho hp2
    · exact decMul_nonneg _ _ hcc hp3
    · exact decMul_nonneg _ _ hcr hp4
  exact decQuantize_ok _ _ _ htot h'

/-- Witness for C10 at a concrete input: 100/50/10/5 tokens at the default
rates cost exactly 0.001089 USD, a non-negative multiple of 10^-6. -/
theorem claim_C10_witness :
    calculate_cost [] "m" 100 50 10 5 = .ok ⟨1089, -6⟩ ∧
    (⟨1089, -6⟩ : PyDecimal).exp = -6 ∧ 0 ≤ (⟨1089, -6⟩ : PyDecimal).coeff :=
  ⟨rfl, claim_C10_amended [] "m" 100 50 10 5 ⟨1089, -6⟩ (by decide) (by decide)
    (by decide) (by decide) (fun m q hm => absurd hm (List.not_mem_nil _)) rfl⟩
